import Mathlib

/-!
Shallow embedding of the Zerounary/reverse-proxy repository (Rust sources
under src/: main.rs, config.rs, proxy.rs, tls.rs, log.rs) and proofs about
the claims of its specification.

Modelling conventions:
* Rust `u16`/`u64` values are `Nat`; arithmetic that can wrap is reduced
  `% 2^32` explicitly (SHA-1).
* `HashMap<String, V>` is an association list `List (String × V)` with the
  lookup/insert/contains operations spelled out (`mapGet`, `insertKV`,
  `containsKey`).  `HashSet` iteration order is irrelevant to the claims.
* Fallible Rust code returns `Except`/`Option`; a Rust `panic!`/`unwrap`
  failure is an explicit error/`panicked` constructor.
* `SystemTime` modification times are abstract `Nat` instants wrapped in
  `Option` (absent file ⇒ `none`).
-/

namespace ReverseProxy

/-- Association-list lookup, modelling `HashMap::get`. -/
def mapGet {β : Type} (k : String) : List (String × β) → Option β
  | [] => none
  | kv :: rest => if kv.1 = k then some kv.2 else mapGet k rest

/-- Association-list insert, modelling `HashMap::insert` (replaces an
existing key, otherwise appends). -/
def insertKV {β : Type} (k : String) (v : β) : List (String × β) → List (String × β)
  | [] => [(k, v)]
  | kv :: rest => if kv.1 = k then (k, v) :: rest else kv :: insertKV k v rest

/-- Association-list key membership, modelling `HashMap::contains_key`. -/
def containsKey {β : Type} (k : String) (l : List (String × β)) : Bool :=
  l.any (fun kv => kv.1 = k)

/-- ASCII lower-casing, modelling Rust `str::to_ascii_lowercase` (only the
byte range `A`-`Z` is mapped; all other characters are untouched). -/
def asciiLowerChar (c : Char) : Char :=
  if 'A' ≤ c ∧ c ≤ 'Z' then Char.ofNat (c.toNat + 32) else c

/-- ASCII lower-casing of a whole string. -/
def asciiLower (s : String) : String :=
  String.mk (s.toList.map asciiLowerChar)

/-! ### Config model (src/config.rs) -/

/-- `HostTls` from config.rs: per-host certificate override. -/
structure HostTls where
  cert_file : Option String
  key_file : Option String
deriving DecidableEq

/-- `Host` from config.rs: one upstream route. -/
structure Host where
  ip : String
  port : Nat
  protocol : String
  tls : Option HostTls
deriving DecidableEq

/-- `Config` from config.rs.  The `hosts` HashMap is an association list
with the parsed key strings kept verbatim. -/
structure Config where
  port : Option Nat
  ssl : Option Bool
  ssl_port : Option Nat
  ssl_key_file : Option String
  ssl_cert_file : Option String
  hosts : List (String × Host)
deriving DecidableEq

/-- The fallback `Config` literal used by `read_yaml_file` when the file
read or the YAML parse fails (`unwrap_or` branch in config.rs:48-55). -/
def defaultConfig : Config :=
  { port := some 80
    ssl := some false
    ssl_port := some 443
    ssl_key_file := some "./ssl/private.pem"
    ssl_cert_file := some "./ssl/certificate.crt"
    hosts := [] }

/-- `protocol_check` from config.rs:70-78, as a boolean:
true exactly on the four accepted protocol strings. -/
def protocol_check (value : String) : Bool :=
  ["http", "https", "ws", "wss"].contains value

/-- The diagnostic carried by the `ValidationError` raised by
`protocol_check` (config.rs:74-76).  The validator library Display output
is abstracted to this message text (apostrophes around the protocol names
are dropped). -/
def protocolErrMsg : String :=
  "protocol only support http, https, ws, wss"

/-- `read_yaml_file` from config.rs:46-68.  The filesystem read and YAML
parse are summarised by the `parsed` argument: `none` when either fails
(both collapse to `defaultConfig` through the `ok().unwrap_or` chain).
`Config::validate()` itself always succeeds (no field of `Config` carries
a validator attribute); the explicit loop over `hosts.values()` then
panics — modelled as `Except.error` — on any host whose protocol fails
`protocol_check`. -/
def read_yaml_file (parsed : Option Config) : Except String Config :=
  let result := parsed.getD defaultConfig
  if result.hosts.all (fun kv => protocol_check kv.2.protocol) then
    Except.ok result
  else
    Except.error protocolErrMsg

/-- Outcome of one iteration of the hot-reload loop body.  `panicked`
models the `panic!` inside `read_yaml_file` unwinding the spawned task:
the task dies; the write to the shared config and the `ConfigChanged`
send are never reached. -/
inductive ReloadOutcome where
  | skipped
  | reloaded
  | panicked (msg : String)
deriving DecidableEq

/-- The `should_reload` decision of the hot-reload loop
(config.rs:101-104): reload when the mtime moved or was never seen. -/
def should_reload (last_modified : Option Nat) (current : Nat) : Bool :=
  match last_modified with
  | some previous => current ≠ previous
  | none => true

/-- One tick of the loop body of `spawn_hot_reload_task`
(config.rs:94-119).  State threaded through: the shared config snapshot
and the remembered mtime.  `current` is `file_modified_time` of the YAML
path on this tick (`none` ⇒ `continue`); `parsed` summarises the file
read/YAML parse as in `read_yaml_file`.  On a successful reload the new
snapshot is written and `ConfigChanged` is sent (outcome `reloaded`); if
`read_yaml_file` panics the task dies with the old snapshot and mtime
intact (outcome `panicked`). -/
def hot_reload_tick (shared : Config) (last_modified : Option Nat)
    (current : Option Nat) (parsed : Option Config) :
    ReloadOutcome × Config × Option Nat :=
  match current with
  | none => (ReloadOutcome.skipped, shared, last_modified)
  | some cur =>
    if should_reload last_modified cur then
      match read_yaml_file parsed with
      | Except.ok updated => (ReloadOutcome.reloaded, updated, some cur)
      | Except.error e => (ReloadOutcome.panicked e, shared, last_modified)
    else
      (ReloadOutcome.skipped, shared, last_modified)

/-! ### TLS artifact watcher (src/config.rs, spawn_tls_watch_task) -/

/-- The per-path loop of one artifact-watcher tick (config.rs:142-152):
walk the referenced paths in order, compare each mtime with the previous
tick (only when `initialized`), and build the fresh `next_state` map. -/
def pollLoop (initialized : Bool) (lastState : List (String × Option Nat))
    (mtime : String → Option Nat) (paths : List String)
    (shouldNotify : Bool) (nextState : List (String × Option Nat)) :
    Bool × List (String × Option Nat) :=
  match paths with
  | [] => (shouldNotify, nextState)
  | p :: rest =>
    let modified := mtime p
    let notify :=
      if initialized then
        match mapGet p lastState with
        | some previous => if previous = modified then shouldNotify else true
        | none => true
      else shouldNotify
    pollLoop initialized lastState mtime rest notify (insertKV p modified nextState)

/-- One full tick of `spawn_tls_watch_task` (config.rs:131-175):
per-path mtime comparison, then the removed-paths check (only when
`initialized`).  Returns the emitted flag (`should_notify`, i.e. whether
`TlsArtifactChanged` is sent) and the recorded next state; after any tick
`initialized` is true. -/
def spawn_tls_watch_tick (initialized : Bool)
    (lastState : List (String × Option Nat)) (paths : List String)
    (mtime : String → Option Nat) : Bool × List (String × Option Nat) :=
  let r := pollLoop initialized lastState mtime paths false []
  let removed_paths := lastState.countP (fun kv => !(containsKey kv.1 r.2))
  let should_notify := if initialized then (r.1 || decide (0 < removed_paths)) else r.1
  (should_notify, r.2)

/-! ### SNI certificate resolver and TLS map building (src/tls.rs) -/

/-- `Config::host_tls_entries` from config.rs:212-226: the hosts carrying
a complete per-host TLS override, with the host-name key ASCII
lower-cased at this point (and only at this point). -/
def host_tls_entries (c : Config) : List (String × String × String) :=
  c.hosts.filterMap (fun kv =>
    match kv.2.tls with
    | none => none
    | some t =>
      match t.cert_file, t.key_file with
      | some cert, some key => some (asciiLower kv.1, cert, key)
      | _, _ => none)

/-- The host-map construction loop of `build_rustls_config`
(tls.rs:22-36), with `load_certified_key` abstracted to the oracle
`load : cert path → key path → Option α` (`none` models a load failure,
which only logs and skips that host). -/
def build_host_cert_map {α : Type} (c : Config)
    (load : String → String → Option α) : List (String × α) :=
  (host_tls_entries c).filterMap (fun e =>
    (load e.2.1 e.2.2).map (fun ck => (e.1, ck)))

/-- `HostCertResolver::resolve` from tls.rs:80-90: look up the ASCII
lower-cased client-hello server name in the host map; fall back to the
default certified key, also when no server name was sent at all. -/
def resolve {α : Type} (host_map : List (String × α)) (default_cert : α)
    (server_name : Option String) : Option α :=
  match server_name.map asciiLower with
  | some name =>
    match mapGet name host_map with
    | some cert => some cert
    | none => some default_cert
  | none => some default_cert

/-! ### Request dispatcher (src/proxy.rs and the legacy copy in src/main.rs) -/

/-- HTTP versions, mirroring `http::Version`. -/
inductive Version where
  | http09
  | http10
  | http11
  | http2
  | http3
deriving DecidableEq

/-- The request data the dispatcher reads and rewrites.  `hostHeader` is
the `Host` header already converted by `to_str` (a header whose bytes are
not valid visible ASCII is out of scope of the claims); `uriHost` is
`uri().host()`; `pathAndQuery`/`path` are `uri().path_and_query()` /
`uri().path()`; `uri` is the full URI rendered as a string (the
`Uri::try_from` re-parse of the rewritten string is modelled as the
string itself); `hasUpgrade` is `headers().get(UPGRADE).is_some()`. -/
structure Req where
  hostHeader : Option String
  uriHost : Option String
  pathAndQuery : Option String
  path : String
  uri : String
  version : Version
  hasUpgrade : Bool
  secWebSocketKey : Option String
deriving DecidableEq

/-- `extract_host` from proxy.rs:237-243: prefer the `Host` header,
fall back to the URI host. -/
def extract_host (req : Req) : Option String :=
  req.hostHeader.or req.uriHost

/-- `has_upgrade_header` from proxy.rs:245-247. -/
def has_upgrade_header (req : Req) : Bool :=
  req.hasUpgrade

/-- Which upstream leg the dispatcher hands the rewritten request to. -/
inductive Target where
  | httpsPool
  | httpPool
  | wsBridge
deriving DecidableEq

/-- The routing stage of `proxy_request` (proxy.rs:86-136): effective
host resolution, host-map lookup, URI rewrite, conditional HTTP/1.1
downgrade, and the branch decision on `host_config.protocol` /
`has_upgrade_header`.  Errors are the two early-return `424` pairs. -/
def proxy_request_route (config : Config) (req : Req) (force_http11 : Bool) :
    Except (Nat × String) (Req × String × Target) :=
  let path_query := req.pathAndQuery.getD req.path
  match extract_host req with
  | none => Except.error (424, "The `Host` does not exist in the headers")
  | some host =>
    match mapGet host config.hosts with
    | none => Except.error (424, "Unknown `Host` in the headers")
    | some host_config =>
      let upstream_uri := host_config.protocol ++ "://" ++ host_config.ip ++ ":"
        ++ toString host_config.port ++ path_query
      let req' := { req with
        uri := upstream_uri
        version := if force_http11 then Version.http11 else req.version }
      let target :=
        if host_config.protocol = "https" then Target.httpsPool
        else if host_config.protocol = "http" then
          (if has_upgrade_header req' then Target.wsBridge else Target.httpPool)
        else Target.httpPool
      Except.ok (req', upstream_uri, target)

/-- Rust `str::trim_start_matches`: repeatedly strip the pattern while it
is a prefix (fuel-based recursion on the subject length). -/
def trimStartMatchesAux (fuel : Nat) (pat s : List Char) : List Char :=
  match fuel with
  | 0 => s
  | f + 1 =>
    if pat ≠ [] ∧ pat.isPrefixOf s then trimStartMatchesAux f pat (s.drop pat.length)
    else s

/-- Rust `str::trim_start_matches` on strings. -/
def trimStartMatches (pat s : String) : String :=
  String.mk (trimStartMatchesAux s.length pat.toList s.toList)

/-- What a dispatcher invocation produces.  `ok` carries an opaque
upstream response id; `wsHandled` carries the `ws://` upstream URI and
the Sec-WebSocket-Accept value of the emitted `101` response; `err` is an
early `424` return; `panicked` models an `unwrap`/`expect` failure
crashing the handler (the argument names the unwrap site). -/
inductive Outcome where
  | ok (resp : Nat)
  | wsHandled (wsUri : String) (accept : String)
  | err (status : Nat) (msg : String)
  | panicked (site : String)
deriving DecidableEq

/-! ### SHA-1 and base64 (the `sha1` and `base64` crates used by
`generate_sec_websocket_accept`), over byte lists with explicit `% 2^32`
masking. -/

/-- Truncate to 32 bits. -/
def w32 (x : Nat) : Nat := x % 4294967296

/-- 32-bit left rotation. -/
def rotl (n x : Nat) : Nat := w32 ((x <<< n) ||| (x >>> (32 - n)))

/-- UTF-8 encoding of one scalar value (`Char` invariants already exclude
surrogates), mirroring what Rust `String::as_bytes` exposes. -/
def utf8Bytes (c : Nat) : List Nat :=
  if c < 128 then [c]
  else if c < 2048 then [192 ||| (c >>> 6), 128 ||| (c &&& 63)]
  else if c < 65536 then
    [224 ||| (c >>> 12), 128 ||| ((c >>> 6) &&& 63), 128 ||| (c &&& 63)]
  else
    [240 ||| (c >>> 18), 128 ||| ((c >>> 12) &&& 63),
     128 ||| ((c >>> 6) &&& 63), 128 ||| (c &&& 63)]

/-- The UTF-8 bytes of a string (Rust `str::as_bytes`). -/
def strBytes (s : String) : List Nat :=
  s.toList.flatMap (fun c => utf8Bytes c.toNat)

/-- Big-endian byte rendering of `x` on `n` bytes. -/
def beBytes : Nat → Nat → List Nat
  | 0, _ => []
  | n + 1, x => beBytes n (x >>> 8) ++ [x &&& 255]

/-- SHA-1 padding: append `0x80`, zero-fill to 56 mod 64, then the
message bit length on 8 big-endian bytes. -/
def sha1Pad (msg : List Nat) : List Nat :=
  msg ++ [128] ++ List.replicate ((119 - msg.length % 64) % 64) 0
    ++ beBytes 8 (msg.length * 8)

/-- Big-endian 32-bit words of a byte list (length a multiple of 4). -/
def bytesToWords : List Nat → List Nat
  | b0 :: b1 :: b2 :: b3 :: rest =>
    ((((b0 <<< 8) ||| b1) <<< 8 ||| b2) <<< 8 ||| b3) :: bytesToWords rest
  | _ => []

/-- Message-schedule extension, on the reversed word list (head = newest
word): repeat `n` times `w[i] = rotl1 (w[i-3] xor w[i-8] xor w[i-14] xor
w[i-16])`. -/
def sha1ExtendRev (wrev : List Nat) : Nat → List Nat
  | 0 => wrev
  | n + 1 =>
    sha1ExtendRev
      (rotl 1 (wrev.getD 2 0 ^^^ wrev.getD 7 0 ^^^ wrev.getD 13 0 ^^^ wrev.getD 15 0)
        :: wrev) n

/-- The 80 compression rounds; `i` is the round index, the state is
`(a, b, c, d, e)`. -/
def sha1Rounds (i : Nat) (st : Nat × Nat × Nat × Nat × Nat) :
    List Nat → Nat × Nat × Nat × Nat × Nat
  | [] => st
  | wi :: rest =>
    let (a, b, c, d, e) := st
    let f :=
      if i < 20 then (b &&& c) ||| ((4294967295 ^^^ b) &&& d)
      else if i < 40 then b ^^^ c ^^^ d
      else if i < 60 then (b &&& c) ||| (b &&& d) ||| (c &&& d)
      else b ^^^ c ^^^ d
    let k :=
      if i < 20 then 1518500249
      else if i < 40 then 1859775393
      else if i < 60 then 2400959708
      else 3395469782
    let temp := w32 (rotl 5 a + f + e + k + wi)
    sha1Rounds (i + 1) (temp, a, rotl 30 b, c, d) rest

/-- Split a byte list into 64-byte blocks (fuel-based on the length). -/
def chunks64Aux (fuel : Nat) (l : List Nat) : List (List Nat) :=
  match fuel with
  | 0 => []
  | f + 1 =>
    match l with
    | [] => []
    | _ => l.take 64 :: chunks64Aux f (l.drop 64)

/-- Compress one 64-byte block into the running hash state. -/
def sha1Block (h : Nat × Nat × Nat × Nat × Nat) (block : List Nat) :
    Nat × Nat × Nat × Nat × Nat :=
  let (h0, h1, h2, h3, h4) := h
  let w80 := (sha1ExtendRev (bytesToWords block).reverse 64).reverse
  let (a, b, c, d, e) := sha1Rounds 0 (h0, h1, h2, h3, h4) w80
  (w32 (h0 + a), w32 (h1 + b), w32 (h2 + c), w32 (h3 + d), w32 (h4 + e))

/-- SHA-1 of a byte list, as the 20 digest bytes. -/
def sha1 (msg : List Nat) : List Nat :=
  let padded := sha1Pad msg
  let h := (chunks64Aux padded.length padded).foldl sha1Block
    (1732584193, 4023233417, 2562383102, 271733878, 3285377520)
  beBytes 4 h.1 ++ beBytes 4 h.2.1 ++ beBytes 4 h.2.2.1
    ++ beBytes 4 h.2.2.2.1 ++ beBytes 4 h.2.2.2.2

/-- The standard base64 alphabet used by `base64::engine::general_purpose::STANDARD`
(and the deprecated `base64::encode` in main.rs). -/
def b64Char (n : Nat) : Char :=
  "ABCDEFGHIJKLMNOPQRSTUVWXYZabcdefghijklmnopqrstuvwxyz0123456789+/".toList.getD n 'A'

/-- Standard base64 with padding, 3 input bytes per 4 output chars. -/
def b64Groups : List Nat → List Char
  | b0 :: b1 :: b2 :: rest =>
    let n := (b0 <<< 16) ||| (b1 <<< 8) ||| b2
    b64Char (n >>> 18) :: b64Char ((n >>> 12) &&& 63) :: b64Char ((n >>> 6) &&& 63)
      :: b64Char (n &&& 63) :: b64Groups rest
  | [b0, b1] =>
    let n := (b0 <<< 16) ||| (b1 <<< 8)
    [b64Char (n >>> 18), b64Char ((n >>> 12) &&& 63), b64Char ((n >>> 6) &&& 63), '=']
  | [b0] =>
    let n := b0 <<< 16
    [b64Char (n >>> 18), b64Char ((n >>> 12) &&& 63), '=', '=']
  | [] => []

/-- `base64::encode` / STANDARD-engine encode. -/
def base64Encode (bytes : List Nat) : String :=
  String.mk (b64Groups bytes)

/-- The RFC 6455 GUID appended to the key (proxy.rs:251, main.rs:291). -/
def wsGuid : String := "258EAFA5-E914-47DA-95CA-C5AB0DC85B11"

/-- `generate_sec_websocket_accept` from proxy.rs:249-255 (an identical
copy lives in main.rs:289-295): SHA-1 of `key ++ GUID`, base64-encoded. -/
def generate_sec_websocket_accept (key : String) : String :=
  base64Encode (sha1 (strBytes (key ++ wsGuid)))

/-- `websocket_proxy` from proxy.rs:138-164 (main.rs:182-213 is an
identical copy except for the bridged upstream).  The very first header
access `headers().get(SEC_WEBSOCKET_KEY).unwrap()` panics when the
header is absent; otherwise the `101 Switching Protocols` response is
assembled with the computed accept value.  The later
`WebSocketUpgrade::from_request` extraction and the spawned bridge are
outside the request/response function modelled here. -/
def websocket_proxy (uri : String) (req : Req) : Outcome :=
  let wsUri := "ws" ++ trimStartMatches "http" uri
  match req.secWebSocketKey with
  | none => Outcome.panicked "websocket_proxy: Sec-WebSocket-Key unwrap on None"
  | some key => Outcome.wsHandled wsUri (generate_sec_websocket_accept key)

/-- `proxy_request` from proxy.rs:86-136, completed past the routing
stage.  The hyper client pools are oracles `Req → Option Nat`: `some r`
is a transported upstream response, `none` a transport error, which the
source immediately `unwrap`s — hence `panicked`. -/
def proxy_request (config : Config) (req : Req) (force_http11 : Bool)
    (httpclient httpsclient : Req → Option Nat) : Outcome :=
  match proxy_request_route config req force_http11 with
  | Except.error e => Outcome.err e.1 e.2
  | Except.ok (req', upstream_uri, t) =>
    match t with
    | Target.httpsPool =>
      match httpsclient req' with
      | some r => Outcome.ok r
      | none => Outcome.panicked "httpsclient.request unwrap on Err"
    | Target.httpPool =>
      match httpclient req' with
      | some r => Outcome.ok r
      | none => Outcome.panicked "httpclient.request unwrap on Err"
    | Target.wsBridge => websocket_proxy upstream_uri req'

/-- `proxy_http_reqs` from proxy.rs:66-74: the plain-HTTP listener entry,
`force_http11 = false`. -/
def proxy_http_reqs (config : Config) (req : Req)
    (httpclient httpsclient : Req → Option Nat) : Outcome :=
  proxy_request config req false httpclient httpsclient

/-- `proxy_https_reqs` from proxy.rs:76-84: the HTTPS listener entry,
`force_http11 = true`. -/
def proxy_https_reqs (config : Config) (req : Req)
    (httpclient httpsclient : Req → Option Nat) : Outcome :=
  proxy_request config req true httpclient httpsclient

/-- The legacy HTTPS handler `proxy_https_reqs` from main.rs:128-180
(the crate root wires this copy, not the proxy.rs one).  Same pipeline,
but the version is always forced to HTTP/1.1 and the unknown-host
message is spelled differently. -/
def main_proxy_https_reqs (config : Config) (req : Req)
    (httpclient httpsclient : Req → Option Nat) : Outcome :=
  let path_query := req.pathAndQuery.getD req.path
  match extract_host req with
  | none => Outcome.err 424 "The `Host` does not exist in the headers"
  | some host =>
    match mapGet host config.hosts with
    | none => Outcome.err 424 "Unkown `Host` in the headers"
    | some cfg =>
      let uri := cfg.protocol ++ "://" ++ cfg.ip ++ ":" ++ toString cfg.port ++ path_query
      let req' := { req with uri := uri, version := Version.http11 }
      if cfg.protocol = "https" then
        match httpsclient req' with
        | some r => Outcome.ok r
        | none => Outcome.panicked "httpsclient.request unwrap on Err"
      else if cfg.protocol = "http" then
        if has_upgrade_header req' then websocket_proxy uri req'
        else
          match httpclient req' with
          | some r => Outcome.ok r
          | none => Outcome.panicked "httpclient.request unwrap on Err"
      else
        match httpclient req' with
        | some r => Outcome.ok r
        | none => Outcome.panicked "httpclient.request unwrap on Err"

/-! ### WebSocket bridge (handle_socket in src/proxy.rs and the legacy
copy in src/main.rs).  Frame payloads are byte lists; a text payload is
the UTF-8 byte content of the Rust `String`. -/

/-- `axum::extract::ws::Message`. -/
inductive AxMsg where
  | text (payload : List Nat)
  | binary (payload : List Nat)
  | ping (payload : List Nat)
  | pong (payload : List Nat)
  | close (frame : Option (Nat × List Nat))
deriving DecidableEq

/-- `tungstenite::protocol::Message` (the version in use has no separate
raw-frame variant; none is produced by the bridge in any case). -/
inductive TgMsg where
  | text (payload : List Nat)
  | binary (payload : List Nat)
  | ping (payload : List Nat)
  | pong (payload : List Nat)
  | close (frame : Option (Nat × List Nat))
deriving DecidableEq

/-- The frame kinds named by the spec. -/
inductive FrameKind where
  | text
  | binary
  | ping
  | pong
  | close
deriving DecidableEq

/-- Common abstraction of both message enums: kind plus payload (the
close frame keeps its code and reason). -/
inductive Frame where
  | data (kind : FrameKind) (payload : List Nat)
  | close (frame : Option (Nat × List Nat))
deriving DecidableEq

/-- View of an axum message as an abstract frame. -/
def axView : AxMsg → Frame
  | AxMsg.text p => Frame.data FrameKind.text p
  | AxMsg.binary p => Frame.data FrameKind.binary p
  | AxMsg.ping p => Frame.data FrameKind.ping p
  | AxMsg.pong p => Frame.data FrameKind.pong p
  | AxMsg.close c => Frame.close c

/-- View of a tungstenite message as an abstract frame. -/
def tgView : TgMsg → Frame
  | TgMsg.text p => Frame.data FrameKind.text p
  | TgMsg.binary p => Frame.data FrameKind.binary p
  | TgMsg.ping p => Frame.data FrameKind.ping p
  | TgMsg.pong p => Frame.data FrameKind.pong p
  | TgMsg.close c => Frame.close c

/-- `tungstenite::CloseCode::from(u16)`: every `u16` maps to a
`CloseCode` case that renders back to the same number, so numerically it
is the identity. -/
def closeCodeOfU16 (code : Nat) : Nat := code

/-- `u16::from(CloseCode)` — the inverse rendering, numerically the
identity. -/
def closeCodeToU16 (code : Nat) : Nat := code

/-- The client→upstream arm of `handle_socket` in proxy.rs:177-204: the
translation applied to each received frame before `server_sender.send`. -/
def bridge_client_to_server : AxMsg → TgMsg
  | AxMsg.text t => TgMsg.text t
  | AxMsg.binary v => TgMsg.binary v
  | AxMsg.ping v => TgMsg.ping v
  | AxMsg.pong v => TgMsg.pong v
  | AxMsg.close cf => TgMsg.close (cf.map (fun c => (closeCodeOfU16 c.1, c.2)))

/-- The upstream→client arm of `handle_socket` in proxy.rs:205-233. -/
def bridge_server_to_client : TgMsg → AxMsg
  | TgMsg.text t => AxMsg.text t
  | TgMsg.binary v => AxMsg.binary v
  | TgMsg.ping v => AxMsg.ping v
  | TgMsg.pong v => AxMsg.pong v
  | TgMsg.close cf => AxMsg.close (cf.map (fun c => (closeCodeToU16 c.1, c.2)))

/-- Is `b` a UTF-8 continuation byte. -/
def contB (b : Nat) : Bool := 128 ≤ b && b ≤ 191

/-- UTF-8 validity of a byte list (RFC 3629 shortest-form encoding,
surrogates excluded) — the check performed by Rust `str::from_utf8`. -/
def utf8Valid : List Nat → Bool
  | [] => true
  | b :: rest =>
    if b ≤ 127 then utf8Valid rest
    else if 194 ≤ b && b ≤ 223 then
      match rest with
      | c1 :: rest2 => contB c1 && utf8Valid rest2
      | [] => false
    else if b = 224 then
      match rest with
      | c1 :: c2 :: rest3 => (160 ≤ c1 && c1 ≤ 191) && contB c2 && utf8Valid rest3
      | _ => false
    else if (225 ≤ b && b ≤ 236) || (238 ≤ b && b ≤ 239) then
      match rest with
      | c1 :: c2 :: rest3 => contB c1 && contB c2 && utf8Valid rest3
      | _ => false
    else if b = 237 then
      match rest with
      | c1 :: c2 :: rest3 => (128 ≤ c1 && c1 ≤ 159) && contB c2 && utf8Valid rest3
      | _ => false
    else if b = 240 then
      match rest with
      | c1 :: c2 :: c3 :: rest4 =>
        (144 ≤ c1 && c1 ≤ 191) && contB c2 && contB c3 && utf8Valid rest4
      | _ => false
    else if 241 ≤ b && b ≤ 243 then
      match rest with
      | c1 :: c2 :: c3 :: rest4 => contB c1 && contB c2 && contB c3 && utf8Valid rest4
      | _ => false
    else if b = 244 then
      match rest with
      | c1 :: c2 :: c3 :: rest4 =>
        (128 ≤ c1 && c1 ≤ 143) && contB c2 && contB c3 && utf8Valid rest4
      | _ => false
    else false

/-- `axum::extract::ws::Message::to_text` (the `&str` result carried as
its UTF-8 bytes): a text frame yields its payload, binary/ping/pong
yield their bytes when valid UTF-8 (else an error, i.e. `none`), a close
frame yields its reason (empty for a bare close). -/
def ax_to_text : AxMsg → Option (List Nat)
  | AxMsg.text s => some s
  | AxMsg.binary b => if utf8Valid b then some b else none
  | AxMsg.ping b => if utf8Valid b then some b else none
  | AxMsg.pong b => if utf8Valid b then some b else none
  | AxMsg.close none => some []
  | AxMsg.close (some c) => some c.2

/-- The client→upstream arm of the legacy `handle_socket` in
main.rs:228-233: every frame is re-sent as
`Message::Text(msg.to_text().unwrap().to_string())`; `none` models the
`unwrap` panic on a non-UTF-8 payload. -/
def main_bridge_client_to_server (m : AxMsg) : Option TgMsg :=
  (ax_to_text m).map (fun s => TgMsg.text s)

/-! ### Shared concrete fixtures used by witnesses and counterexamples -/

/-- A plain `http` upstream route. -/
def sampleHost : Host := { ip := "127.0.0.1", port := 9001, protocol := "http", tls := none }

/-- A one-host configuration routing `a.local`. -/
def sampleCfg : Config := { defaultConfig with hosts := [("a.local", sampleHost)] }

/-- An ordinary request addressed to `a.local`. -/
def sampleReq : Req :=
  { hostHeader := some "a.local", uriHost := none, pathAndQuery := some "/ws?x=1"
    path := "/ws", uri := "http://a.local/ws?x=1", version := Version.http2
    hasUpgrade := false, secWebSocketKey := none }

/-! ### Claim theorems -/

/-- C6: the SNI certificate resolver looks up the lower-cased server
name by exact match in the host map and returns that certified key if
present, otherwise the default key; it never returns `none`, also when
no server name was sent. -/
theorem claim6_sni_resolve_total {α : Type} (host_map : List (String × α))
    (default_cert : α) (server_name : Option String) :
    resolve host_map default_cert server_name =
      some (((server_name.map asciiLower).bind (fun n => mapGet n host_map)).getD
        default_cert) ∧
    (resolve host_map default_cert server_name).isSome = true := by
  constructor
  · cases server_name with
    | none => rfl
    | some n =>
      simp only [resolve, Option.map_some, Option.bind_some]
      cases h : mapGet (asciiLower n) host_map <;> simp [h]
  · cases server_name with
    | none => rfl
    | some n =>
      simp only [resolve, Option.map_some]
      cases h : mapGet (asciiLower n) host_map <;> simp [h]

/-- C8: `generate_sec_websocket_accept key` is
`base64(SHA1(key ++ "258EAFA5-E914-47DA-95CA-C5AB0DC85B11"))` for every
key, and on the RFC 6455 fixture key it yields the fixture accept
value. -/
theorem claim8_sec_websocket_accept :
    (∀ key : String,
      generate_sec_websocket_accept key =
        base64Encode (sha1 (strBytes (key ++ "258EAFA5-E914-47DA-95CA-C5AB0DC85B11")))) ∧
    generate_sec_websocket_accept "dGhlIHNhbXBsZSBub25jZQ==" =
      "s3pPLMBiTxaQ9kYGzzhZRbK+xOo=" := by
  constructor
  · intro key
    rfl
  · set_option maxRecDepth 10000 in decide

/-- C10: a request routed to an `http`-protocol host that carries an
`Upgrade` header (here not a WebSocket upgrade) but no
`Sec-WebSocket-Key` header reaches the `unwrap` of the
`Sec-WebSocket-Key` lookup in `websocket_proxy` on its `None` branch:
the handler panics instead of producing any HTTP response.  Nothing the
dispatcher checks before the hand-off (`has_upgrade_header` only tests
presence of `Upgrade`) rules this input out. -/
theorem claim10_ws_key_unwrap_reachable :
    has_upgrade_header
      { sampleReq with hasUpgrade := true, secWebSocketKey := none } = true ∧
    ({ sampleReq with hasUpgrade := true, secWebSocketKey := none } : Req).secWebSocketKey
      = none ∧
    proxy_http_reqs sampleCfg
      { sampleReq with hasUpgrade := true, secWebSocketKey := none }
      (fun _ => some 0) (fun _ => some 0) =
      Outcome.panicked "websocket_proxy: Sec-WebSocket-Key unwrap on None" := by
  refine ⟨rfl, rfl, ?_⟩
  decide

/-- C1: whenever the effective host resolves to a configured route, the
dispatcher rewrites the URI to `{protocol}://{ip}:{port}{path_and_query}`
(falling back to the bare path), sets the version to HTTP/1.1 exactly
when `force_http11` holds (which `proxy_https_reqs` — the HTTPS listener
entry — sets and `proxy_http_reqs` does not), and branches: `https` to
the HTTPS pool, `http` with an `Upgrade` header to the WebSocket bridge,
`http` without one and every other protocol value to the plain HTTP
pool. -/
theorem claim1_dispatch_route (config : Config) (req : Req) (force_http11 : Bool)
    (host : String) (hc : Host)
    (hhost : extract_host req = some host)
    (hlook : mapGet host config.hosts = some hc) :
    ∃ T : Target,
      proxy_request_route config req force_http11 =
        Except.ok
          ({ req with
              uri := hc.protocol ++ "://" ++ hc.ip ++ ":" ++ toString hc.port
                ++ (req.pathAndQuery.getD req.path)
              version := if force_http11 then Version.http11 else req.version },
            hc.protocol ++ "://" ++ hc.ip ++ ":" ++ toString hc.port
              ++ (req.pathAndQuery.getD req.path),
            T) ∧
      (hc.protocol = "https" → T = Target.httpsPool) ∧
      (hc.protocol = "http" →
        T = if has_upgrade_header req then Target.wsBridge else Target.httpPool) ∧
      (hc.protocol ≠ "https" → hc.protocol ≠ "http" → T = Target.httpPool) ∧
      (∀ httpclient httpsclient,
        proxy_https_reqs config req httpclient httpsclient =
          proxy_request config req true httpclient httpsclient ∧
        proxy_http_reqs config req httpclient httpsclient =
          proxy_request config req false httpclient httpsclient) := by
  refine ⟨if hc.protocol = "https" then Target.httpsPool
      else if hc.protocol = "http" then
        (if has_upgrade_header req then Target.wsBridge else Target.httpPool)
      else Target.httpPool, ?_, ?_, ?_, ?_, ?_⟩
  · simp only [proxy_request_route, hhost, hlook]
    rfl
  · intro h
    simp [h]
  · intro h
    have : hc.protocol ≠ "https" := by
      rw [h]
      decide
    simp [h, this]
  · intro h1 h2
    simp [h1, h2]
  · intro httpclient httpsclient
    exact ⟨rfl, rfl⟩

/-- Witness for C1 at a concrete configured request: the route of
`sampleReq` (an `http` host without `Upgrade`) through the HTTPS
listener. -/
theorem claim1_dispatch_route_witness :
    ∃ T : Target,
      proxy_request_route sampleCfg sampleReq true =
        Except.ok
          ({ sampleReq with
              uri := sampleHost.protocol ++ "://" ++ sampleHost.ip ++ ":"
                ++ toString sampleHost.port ++ (sampleReq.pathAndQuery.getD sampleReq.path)
              version := if true then Version.http11 else sampleReq.version },
            sampleHost.protocol ++ "://" ++ sampleHost.ip ++ ":"
              ++ toString sampleHost.port ++ (sampleReq.pathAndQuery.getD sampleReq.path),
            T) ∧
      (sampleHost.protocol = "https" → T = Target.httpsPool) ∧
      (sampleHost.protocol = "http" →
        T = if has_upgrade_header sampleReq then Target.wsBridge else Target.httpPool) ∧
      (sampleHost.protocol ≠ "https" → sampleHost.protocol ≠ "http" →
        T = Target.httpPool) ∧
      (∀ httpclient httpsclient,
        proxy_https_reqs sampleCfg sampleReq httpclient httpsclient =
          proxy_request sampleCfg sampleReq true httpclient httpsclient ∧
        proxy_http_reqs sampleCfg sampleReq httpclient httpsclient =
          proxy_request sampleCfg sampleReq false httpclient httpsclient) :=
  claim1_dispatch_route sampleCfg sampleReq true "a.local" sampleHost
    (by decide) (by decide)

/-- A route whose protocol fails `protocol_check`. -/
def badHost : Host := { ip := "10.0.0.1", port := 1234, protocol := "ftp", tls := none }

/-- A configuration rejected by validation. -/
def badCfg : Config := { defaultConfig with hosts := [("bad.local", badHost)] }

/-- Does this reload outcome kill the watcher task (an uncaught panic)? -/
def reloadTaskDies : ReloadOutcome → Bool
  | ReloadOutcome.panicked _ => true
  | _ => false

/-- C2 counterexample: a reload tick that picks up a config whose
validation is rejected does not retain-and-warn — `read_yaml_file`
panics, which kills the hot-reload watcher task (the snapshot and
stored mtime are left as they were only because the panic aborts the
loop body early). -/
theorem claim2_reload_panic_counterexample :
    hot_reload_tick defaultConfig (some 1) (some 2) (some badCfg) =
      (ReloadOutcome.panicked protocolErrMsg, defaultConfig, some 1) ∧
    reloadTaskDies (hot_reload_tick defaultConfig (some 1) (some 2) (some badCfg)).1
      = true := by
  decide

/-- C2 amended: validation rejection makes `read_yaml_file` panic in
both contexts.  At startup (the call in `main`) this is fatal.  At
reload the same panic unwinds the spawned hot-reload task: the old
snapshot and stored mtime are retained because the panic precedes the
write, but no warning path exists and the watcher task itself dies. -/
theorem claim2_validation_panics (cfg : Config) (shared : Config)
    (last : Option Nat) (cur : Nat)
    (hbad : cfg.hosts.all (fun kv => protocol_check kv.2.protocol) = false)
    (hfires : should_reload last cur = true) :
    read_yaml_file (some cfg) = Except.error protocolErrMsg ∧
    hot_reload_tick shared last (some cur) (some cfg) =
      (ReloadOutcome.panicked protocolErrMsg, shared, last) := by
  have hread : read_yaml_file (some cfg) = Except.error protocolErrMsg := by
    simp [read_yaml_file, hbad]
  refine ⟨hread, ?_⟩
  simp [hot_reload_tick, hfires, hread]

/-- Witness for C2's amended theorem at the concrete rejected config. -/
theorem claim2_validation_panics_witness :
    read_yaml_file (some badCfg) = Except.error protocolErrMsg ∧
    hot_reload_tick defaultConfig (some 1) (some 2) (some badCfg) =
      (ReloadOutcome.panicked protocolErrMsg, defaultConfig, some 1) :=
  claim2_validation_panics badCfg defaultConfig (some 1) 2 (by decide) (by decide)

/-- Does the handler complete with some HTTP-level result (an upstream
response, a 101 handshake, or an error response) rather than crash? -/
def handlerCompletes : Outcome → Bool
  | Outcome.panicked _ => false
  | _ => true

/-- C3 counterexample: on an upstream transport failure (the plain HTTP
pool returns an error) the dispatcher `unwrap`s and the handler panics —
the failure does not surface as a failure result and no 424 is
produced. -/
theorem claim3_upstream_failure_counterexample :
    proxy_request sampleCfg sampleReq false (fun _ => none) (fun _ => some 0) =
      Outcome.panicked "httpclient.request unwrap on Err" ∧
    handlerCompletes
      (proxy_request sampleCfg sampleReq false (fun _ => none) (fun _ => some 0))
      = false := by
  decide

/-- The only error pairs `proxy_request_route` can return are the two
documented 424s. -/
theorem route_error_only_424 (config : Config) (req : Req) (f11 : Bool)
    (e : Nat × String) (h : proxy_request_route config req f11 = Except.error e) :
    e = (424, "The `Host` does not exist in the headers") ∨
    e = (424, "Unknown `Host` in the headers") := by
  unfold proxy_request_route at h
  cases hh : extract_host req with
  | none =>
    simp only [hh] at h
    exact Or.inl (Except.error.inj h).symm
  | some host =>
    cases hl : mapGet host config.hosts with
    | none =>
      simp only [hh, hl] at h
      exact Or.inr (Except.error.inj h).symm
    | some hc =>
      simp only [hh, hl] at h
      cases h

/-- C3 amended: an upstream transport failure on the selected client
pool makes the handler panic through `unwrap` (there is no retry and no
failure response); the only failure results the dispatcher itself
returns are the two documented 424s. -/
theorem claim3_amended_no_silent_recovery :
    (∀ (config : Config) (req : Req) (f11 : Bool) httpclient httpsclient req' u,
      proxy_request_route config req f11 = Except.ok (req', u, Target.httpPool) →
      httpclient req' = none →
      proxy_request config req f11 httpclient httpsclient =
        Outcome.panicked "httpclient.request unwrap on Err") ∧
    (∀ (config : Config) (req : Req) (f11 : Bool) httpclient httpsclient req' u,
      proxy_request_route config req f11 = Except.ok (req', u, Target.httpsPool) →
      httpsclient req' = none →
      proxy_request config req f11 httpclient httpsclient =
        Outcome.panicked "httpsclient.request unwrap on Err") ∧
    (∀ (config : Config) (req : Req) (f11 : Bool) httpclient httpsclient s m,
      proxy_request config req f11 httpclient httpsclient = Outcome.err s m →
      s = 424 ∧ (m = "The `Host` does not exist in the headers" ∨
        m = "Unknown `Host` in the headers")) := by
  refine ⟨?_, ?_, ?_⟩
  · intro config req f11 hc hsc req' u hroute hfail
    simp [proxy_request, hroute, hfail]
  · intro config req f11 hc hsc req' u hroute hfail
    simp [proxy_request, hroute, hfail]
  · intro config req f11 hc hsc s m h
    unfold proxy_request at h
    cases hr : proxy_request_route config req f11 with
    | error e =>
      rw [hr] at h
      have he := route_error_only_424 config req f11 e hr
      cases h
      rcases he with he | he <;> rw [he] <;> simp
    | ok v =>
      rw [hr] at h
      obtain ⟨req', u, t⟩ := v
      cases t with
      | httpsPool =>
        cases hx : hsc req' <;> simp [hx] at h
      | httpPool =>
        cases hx : hc req' <;> simp [hx] at h
      | wsBridge =>
        unfold websocket_proxy at h
        cases hx : req'.secWebSocketKey <;> simp [hx] at h

/-- Witness for C3's amended theorem: a concrete routed request whose
plain-HTTP pool call fails, and a concrete 424. -/
theorem claim3_amended_witness :
    proxy_request sampleCfg sampleReq false (fun _ => none) (fun _ => some 0) =
      Outcome.panicked "httpclient.request unwrap on Err" ∧
    ((424 : Nat) = 424 ∧ ("Unknown `Host` in the headers" =
        "The `Host` does not exist in the headers" ∨
      "Unknown `Host` in the headers" = "Unknown `Host` in the headers")) :=
  ⟨claim3_amended_no_silent_recovery.1 sampleCfg sampleReq false
      (fun _ => none) (fun _ => some 0)
      ({ sampleReq with uri := "http://127.0.0.1:9001/ws?x=1" }) "http://127.0.0.1:9001/ws?x=1"
      rfl rfl,
    claim3_amended_no_silent_recovery.2.2 sampleCfg
      { sampleReq with hostHeader := some "b.local" } false
      (fun _ => none) (fun _ => some 0) 424 "Unknown `Host` in the headers"
      (by decide)⟩

/-- C5 counterexample: the HTTPS handler actually wired by the crate
root (`proxy_https_reqs` in main.rs) answers an unknown host with the
misspelled message `Unkown ...`, not the exact `Unknown ...` the claim
states. -/
theorem claim5_unknown_host_message_counterexample :
    main_proxy_https_reqs sampleCfg { sampleReq with hostHeader := some "b.local" }
      (fun _ => some 0) (fun _ => some 0) =
      Outcome.err 424 "Unkown `Host` in the headers" ∧
    ("Unkown `Host` in the headers" : String) ≠ "Unknown `Host` in the headers" := by
  decide

/-- C5 amended: both failure cases return `424 FAILED_DEPENDENCY`.  The
proxy.rs dispatcher uses exactly "The `Host` does not exist in the
headers" and "Unknown `Host` in the headers"; the legacy main.rs
handlers share the former but spell the unknown-host message
"Unkown `Host` in the headers". -/
theorem claim5_424_messages :
    (∀ (config : Config) (req : Req) (f11 : Bool) httpclient httpsclient,
      extract_host req = none →
      proxy_request config req f11 httpclient httpsclient =
        Outcome.err 424 "The `Host` does not exist in the headers") ∧
    (∀ (config : Config) (req : Req) (f11 : Bool) httpclient httpsclient host,
      extract_host req = some host → mapGet host config.hosts = none →
      proxy_request config req f11 httpclient httpsclient =
        Outcome.err 424 "Unknown `Host` in the headers") ∧
    (∀ (config : Config) (req : Req) httpclient httpsclient,
      extract_host req = none →
      main_proxy_https_reqs config req httpclient httpsclient =
        Outcome.err 424 "The `Host` does not exist in the headers") ∧
    (∀ (config : Config) (req : Req) httpclient httpsclient host,
      extract_host req = some host → mapGet host config.hosts = none →
      main_proxy_https_reqs config req httpclient httpsclient =
        Outcome.err 424 "Unkown `Host` in the headers") := by
  refine ⟨?_, ?_, ?_, ?_⟩
  · intro config req f11 hc hsc h
    simp [proxy_request, proxy_request_route, h]
  · intro config req f11 hc hsc host hh hl
    simp [proxy_request, proxy_request_route, hh, hl]
  · intro config req hc hsc h
    simp [main_proxy_https_reqs, h]
  · intro config req hc hsc host hh hl
    simp [main_proxy_https_reqs, hh, hl]

/-- Witness for C5's amended theorem: a host-less request and an
unknown-host request through both dispatcher generations. -/
theorem claim5_424_messages_witness :
    proxy_request sampleCfg { sampleReq with hostHeader := none } false
      (fun _ => some 0) (fun _ => some 0) =
      Outcome.err 424 "The `Host` does not exist in the headers" ∧
    proxy_request sampleCfg { sampleReq with hostHeader := some "b.local" } false
      (fun _ => some 0) (fun _ => some 0) =
      Outcome.err 424 "Unknown `Host` in the headers" ∧
    main_proxy_https_reqs sampleCfg { sampleReq with hostHeader := none }
      (fun _ => some 0) (fun _ => some 0) =
      Outcome.err 424 "The `Host` does not exist in the headers" ∧
    main_proxy_https_reqs sampleCfg { sampleReq with hostHeader := some "b.local" }
      (fun _ => some 0) (fun _ => some 0) =
      Outcome.err 424 "Unkown `Host` in the headers" :=
  ⟨claim5_424_messages.1 sampleCfg _ false _ _ rfl,
   claim5_424_messages.2.1 sampleCfg _ false _ _ "b.local" rfl (by decide),
   claim5_424_messages.2.2.1 sampleCfg _ _ _ rfl,
   claim5_424_messages.2.2.2 sampleCfg _ _ _ "b.local" rfl (by decide)⟩

/-- A route configured under a mixed-case host-name key, with a per-host
TLS override. -/
def upperHost : Host :=
  { ip := "10.0.0.2", port := 8443, protocol := "http"
    tls := some { cert_file := some "c.pem", key_file := some "k.pem" } }

/-- A configuration whose only host key contains upper-case letters. -/
def upperCfg : Config := { defaultConfig with hosts := [("Example.com", upperHost)] }

/-- C4 counterexample: host keys are not lower-cased at load time
(`read_yaml_file` returns the parsed map verbatim), and the HTTP `Host`
lookup is byte-exact against that stored key — a request whose `Host` is
the lower-cased spelling gets `424` — while SNI matching on the same
name succeeds, because only `host_tls_entries` (at TLS-config build) and
`resolve` lower-case. -/
theorem claim4_normalization_counterexample :
    read_yaml_file (some upperCfg) = Except.ok upperCfg ∧
    mapGet "example.com" upperCfg.hosts = none ∧
    proxy_request upperCfg { sampleReq with hostHeader := some "example.com" } false
      (fun _ => some 0) (fun _ => some 0) =
      Outcome.err 424 "Unknown `Host` in the headers" ∧
    resolve (build_host_cert_map upperCfg (fun _ _ => some 1)) 0
      (some "example.com") = some 1 := by
  refine ⟨rfl, by decide, by decide, by decide⟩

/-- C4 amended: the loader does not normalize host keys (a validated
config is returned verbatim); lower-casing happens only on the SNI side
— `host_tls_entries` lower-cases the configured key when the TLS config
is built and `resolve` lower-cases the client-hello name — so SNI
matching is case-insensitive while the HTTP `Host` lookup is case
sensitive against the configured spelling. -/
theorem claim4_normalization_sites :
    (∀ cfg : Config,
      cfg.hosts.all (fun kv => protocol_check kv.2.protocol) = true →
      read_yaml_file (some cfg) = Except.ok cfg) ∧
    (∀ (cfg : Config) (e : String × String × String),
      e ∈ host_tls_entries cfg → ∃ kv ∈ cfg.hosts, e.1 = asciiLower kv.1) ∧
    (∀ {α : Type} (m : List (String × α)) (d : α) (n : String),
      resolve m d (some n) = some ((mapGet (asciiLower n) m).getD d)) ∧
    (∀ (config : Config) (req : Req) (f11 : Bool) (host : String),
      extract_host req = some host → mapGet host config.hosts = none →
      proxy_request_route config req f11 =
        Except.error (424, "Unknown `Host` in the headers")) := by
  refine ⟨?_, ?_, ?_, ?_⟩
  · intro cfg h
    simp [read_yaml_file, h]
  · intro cfg e he
    rw [host_tls_entries, List.mem_filterMap] at he
    obtain ⟨kv, hkv, hf⟩ := he
    refine ⟨kv, hkv, ?_⟩
    cases htls : kv.2.tls with
    | none => simp [htls] at hf
    | some t =>
      cases hc : t.cert_file with
      | none => simp [htls, hc] at hf
      | some cert =>
        cases hk : t.key_file with
        | none => simp [htls, hc, hk] at hf
        | some key =>
          simp only [htls, hc, hk, Option.some.injEq] at hf
          rw [← hf]
  · intro α m d n
    simp only [resolve, Option.map_some]
    cases h : mapGet (asciiLower n) m <;> simp [h]
  · intro config req f11 host hh hl
    simp [proxy_request_route, hh, hl]

/-- Witness for C4's amended theorem at the mixed-case configuration. -/
theorem claim4_normalization_sites_witness :
    read_yaml_file (some upperCfg) = Except.ok upperCfg ∧
    (∃ kv ∈ upperCfg.hosts, ("example.com", "c.pem", "k.pem").1 = asciiLower kv.1) ∧
    resolve [("example.com", 1)] 0 (some "Example.COM") =
      some ((mapGet (asciiLower "Example.COM") [("example.com", 1)]).getD 0) ∧
    proxy_request_route upperCfg { sampleReq with hostHeader := some "example.com" }
      false = Except.error (424, "Unknown `Host` in the headers") :=
  ⟨claim4_normalization_sites.1 upperCfg (by decide),
   claim4_normalization_sites.2.1 upperCfg ("example.com", "c.pem", "k.pem")
     (by decide),
   claim4_normalization_sites.2.2.1 [("example.com", 1)] 0 "Example.COM",
   claim4_normalization_sites.2.2.2 upperCfg
     { sampleReq with hostHeader := some "example.com" } false "example.com"
     rfl (by decide)⟩

/-- C9 counterexample: the legacy bridge in main.rs re-sends every
client frame as a Text frame built from `to_text`; a Close frame with
code 1000 and reason "bye" is forwarded as a Text frame carrying the
bare reason — its kind, code and framing are not preserved. -/
theorem claim9_kind_collapse_counterexample :
    main_bridge_client_to_server (AxMsg.close (some (1000, [98, 121, 101]))) =
      some (TgMsg.text [98, 121, 101]) ∧
    (main_bridge_client_to_server (AxMsg.close (some (1000, [98, 121, 101])))).map tgView
      ≠ some (axView (AxMsg.close (some (1000, [98, 121, 101])))) := by
  decide

/-- C9 amended: the current bridge (`handle_socket` in proxy.rs)
preserves every frame exactly — kind and payload carried over, Close
keeping its code and reason, the two translations mutually inverse — so
any sequence of frames in one direction reaches the peer as the same
sequence in the same order; the legacy main.rs bridge instead collapses
each frame to Text (see the counterexample). -/
theorem claim9_bridge_preserves_frames :
    (∀ m : AxMsg, tgView (bridge_client_to_server m) = axView m) ∧
    (∀ m : TgMsg, axView (bridge_server_to_client m) = tgView m) ∧
    (∀ m : AxMsg, bridge_server_to_client (bridge_client_to_server m) = m) ∧
    (∀ m : TgMsg, bridge_client_to_server (bridge_server_to_client m) = m) ∧
    (∀ ms : List AxMsg,
      (ms.map bridge_client_to_server).map tgView = ms.map axView) ∧
    (∀ ms : List TgMsg,
      (ms.map bridge_server_to_client).map axView = ms.map tgView) := by
  have h1 : ∀ m : AxMsg, tgView (bridge_client_to_server m) = axView m := by
    intro m
    cases m with
    | close cf => cases cf <;> rfl
    | _ => rfl
  have h2 : ∀ m : TgMsg, axView (bridge_server_to_client m) = tgView m := by
    intro m
    cases m with
    | close cf => cases cf <;> rfl
    | _ => rfl
  refine ⟨h1, h2, ?_, ?_, ?_, ?_⟩
  · intro m
    cases m with
    | close cf => cases cf <;> rfl
    | _ => rfl
  · intro m
    cases m with
    | close cf => cases cf <;> rfl
    | _ => rfl
  · intro ms
    induction ms with
    | nil => rfl
    | cons m rest ih => simp [ih, h1 m]
  · intro ms
    induction ms with
    | nil => rfl
    | cons m rest ih => simp [ih, h2 m]

/-! ### Helper lemmas for the artifact-watcher proofs -/

theorem mapGet_insertKV {β : Type} (k k' : String) (v : β) (l : List (String × β)) :
    mapGet k' (insertKV k v l) = if k = k' then some v else mapGet k' l := by
  induction l with
  | nil => simp only [insertKV, mapGet]
  | cons kv rest ih =>
    simp only [insertKV]
    by_cases h : kv.1 = k
    · rw [if_pos h]
      simp only [mapGet]
      by_cases hk : k = k'
      · rw [if_pos hk, if_pos hk]
      · rw [if_neg hk, if_neg hk, if_neg (fun hh : kv.1 = k' => hk (h.symm.trans hh))]
    · rw [if_neg h]
      simp only [mapGet]
      by_cases hk' : kv.1 = k'
      · rw [if_pos hk']
        by_cases hk : k = k'
        · exact absurd (hk'.trans hk.symm) h
        · rw [if_neg hk, if_pos hk']
      · rw [if_neg hk', ih]
        by_cases hk : k = k'
        · rw [if_pos hk, if_pos hk]
        · rw [if_neg hk, if_neg hk, if_neg hk']

theorem containsKey_cons {β : Type} (k : String) (kv : String × β)
    (l : List (String × β)) :
    containsKey k (kv :: l) = (decide (kv.1 = k) || containsKey k l) := by
  simp [containsKey, List.any_cons]

theorem containsKey_insertKV {β : Type} (k k' : String) (v : β) (l : List (String × β)) :
    containsKey k' (insertKV k v l) = (decide (k = k') || containsKey k' l) := by
  induction l with
  | nil => simp [insertKV, containsKey]
  | cons kv rest ih =>
    simp only [insertKV]
    by_cases h : kv.1 = k
    · rw [if_pos h, containsKey_cons, containsKey_cons, h]
      by_cases hk : k = k' <;> simp [hk]
    · rw [if_neg h, containsKey_cons, containsKey_cons, ih]
      by_cases hk : k = k' <;> by_cases hk' : kv.1 = k' <;> simp [hk, hk']

theorem pollLoop_fst (init : Bool) (last : List (String × Option Nat))
    (mt : String → Option Nat) (paths : List String) (sn : Bool)
    (ns : List (String × Option Nat)) :
    (pollLoop init last mt paths sn ns).1 =
      (sn || (init && paths.any (fun p => !(decide (mapGet p last = some (mt p)))))) := by
  induction paths generalizing sn ns with
  | nil => simp [pollLoop]
  | cons p rest ih =>
    unfold pollLoop
    rw [ih]
    cases init with
    | false => simp
    | true =>
      cases hm : mapGet p last with
      | none => simp [List.any_cons, hm]
      | some prev =>
        by_cases hpm : prev = mt p <;> simp [List.any_cons, hm, hpm]

theorem pollLoop_mapGet (init : Bool) (last : List (String × Option Nat))
    (mt : String → Option Nat) (paths : List String) (sn : Bool)
    (ns : List (String × Option Nat)) (q : String) :
    mapGet q (pollLoop init last mt paths sn ns).2 =
      if q ∈ paths then some (mt q) else mapGet q ns := by
  induction paths generalizing sn ns with
  | nil => simp [pollLoop]
  | cons p rest ih =>
    unfold pollLoop
    rw [ih]
    by_cases hq : q ∈ rest
    · simp [hq, List.mem_cons]
    · by_cases hpq : q = p
      · simp [hq, hpq, mapGet_insertKV, List.mem_cons]
      · have hqp : p ≠ q := fun he => hpq he.symm
        simp [hq, hpq, hqp, mapGet_insertKV, List.mem_cons]

theorem pollLoop_containsKey (init : Bool) (last : List (String × Option Nat))
    (mt : String → Option Nat) (paths : List String) (sn : Bool)
    (ns : List (String × Option Nat)) (q : String) :
    containsKey q (pollLoop init last mt paths sn ns).2 =
      (decide (q ∈ paths) || containsKey q ns) := by
  induction paths generalizing sn ns with
  | nil => simp [pollLoop]
  | cons p rest ih =>
    unfold pollLoop
    rw [ih]
    by_cases hq : q ∈ rest
    · simp [hq, List.mem_cons]
    · by_cases hpq : q = p
      · simp [hq, hpq, containsKey_insertKV, List.mem_cons]
      · have hqp : p ≠ q := fun he => hpq he.symm
        simp [hq, hpq, hqp, containsKey_insertKV, List.mem_cons]

theorem countP_pos_decide_eq_any {α : Type} (g : α → Bool) (l : List α) :
    decide (0 < l.countP g) = l.any g := by
  by_cases h : 0 < l.countP g
  · obtain ⟨a, ha, hg⟩ := List.countP_pos_iff.mp h
    rw [decide_eq_true h, List.any_eq_true.mpr ⟨a, ha, hg⟩]
  · have h0 : l.countP g = 0 := Nat.eq_zero_of_not_pos h
    have hall := List.countP_eq_zero.mp h0
    rw [decide_eq_false h, Eq.comm, List.any_eq_false]
    exact hall

/-- The emitted flag of a non-priming tick, in declarative form. -/
theorem spawn_tls_watch_tick_true_fst (last : List (String × Option Nat))
    (paths : List String) (mt : String → Option Nat) :
    (spawn_tls_watch_tick true last paths mt).1 =
      (paths.any (fun p => !(decide (mapGet p last = some (mt p))))
        || last.any (fun kv => !(decide (kv.1 ∈ paths)))) := by
  unfold spawn_tls_watch_tick
  simp only [pollLoop_fst, countP_pos_decide_eq_any]
  have hfun : (fun kv : String × Option Nat =>
      !(containsKey kv.1 (pollLoop true last mt paths false []).2)) =
      (fun kv : String × Option Nat => !(decide (kv.1 ∈ paths))) := by
    funext kv
    rw [pollLoop_containsKey]
    simp [containsKey]
  rw [hfun]
  simp

/-- C7: the artifact watcher's first tick is a priming tick — it emits
nothing and records each watched path's mtime — and on every later tick
it emits `TlsArtifactChanged` exactly when some watched path's mtime
differs from the recorded one, a new path appeared (no recorded entry),
or a recorded path left the watched set; in particular a tick whose
paths and mtimes all match the recorded state emits nothing. -/
theorem claim7_artifact_watch_tick :
    (∀ (last : List (String × Option Nat)) (paths : List String)
        (mt : String → Option Nat),
      (spawn_tls_watch_tick false last paths mt).1 = false) ∧
    (∀ (init : Bool) (last : List (String × Option Nat)) (paths : List String)
        (mt : String → Option Nat) (p : String), p ∈ paths →
      mapGet p (spawn_tls_watch_tick init last paths mt).2 = some (mt p)) ∧
    (∀ (last : List (String × Option Nat)) (paths : List String)
        (mt : String → Option Nat),
      (spawn_tls_watch_tick true last paths mt).1 =
        (paths.any (fun p => !(decide (mapGet p last = some (mt p))))
          || last.any (fun kv => !(decide (kv.1 ∈ paths))))) ∧
    (∀ (last : List (String × Option Nat)) (paths : List String)
        (mt : String → Option Nat),
      (∀ p ∈ paths, mapGet p last = some (mt p)) →
      (∀ kv ∈ last, kv.1 ∈ paths) →
      (spawn_tls_watch_tick true last paths mt).1 = false) := by
  refine ⟨?_, ?_, spawn_tls_watch_tick_true_fst, ?_⟩
  · intro last paths mt
    unfold spawn_tls_watch_tick
    simp [pollLoop_fst]
  · intro init last paths mt p hp
    unfold spawn_tls_watch_tick
    simp [pollLoop_mapGet, hp]
  · intro last paths mt hsame hkeep
    rw [spawn_tls_watch_tick_true_fst]
    have h1 : paths.any (fun p => !(decide (mapGet p last = some (mt p)))) = false := by
      rw [List.any_eq_false]
      intro p hp
      simp [hsame p hp]
    have h2 : last.any (fun kv => !(decide (kv.1 ∈ paths))) = false := by
      rw [List.any_eq_false]
      intro kv hkv
      simp [hkeep kv hkv]
    rw [h1, h2]
    rfl

/-- Witness for C7 at a concrete watcher state: the priming record of a
single path and a quiescent later tick over the same path set. -/
theorem claim7_artifact_watch_tick_witness :
    mapGet "./ssl/certificate.crt"
      (spawn_tls_watch_tick false [] ["./ssl/certificate.crt"]
        (fun _ => some 5)).2 = some (some 5) ∧
    (spawn_tls_watch_tick true [("./ssl/certificate.crt", some 5)]
      ["./ssl/certificate.crt"] (fun _ => some 5)).1 = false :=
  ⟨claim7_artifact_watch_tick.2.1 false [] ["./ssl/certificate.crt"]
      (fun _ => some 5) "./ssl/certificate.crt" (by decide),
   claim7_artifact_watch_tick.2.2.2 [("./ssl/certificate.crt", some 5)]
      ["./ssl/certificate.crt"] (fun _ => some 5)
      (by
        intro p hp
        rw [List.mem_singleton] at hp
        subst hp
        decide)
      (by
        intro kv hkv
        rw [List.mem_singleton] at hkv
        subst hkv
        decide)⟩

end ReverseProxy
